import Mathlib

/-!
Verification of the Mergington High School activities service
(`src/app.py` and its test suite `tests/test_app.py`).

The registry is an in-memory mapping from activity name to an activity
record.  We embed it as an association list `List (String × Activity)`
(Python dicts preserve insertion order and have unique keys; the seeded
registry below has unique keys).  The signup handler is translated from
`signup_for_activity` in `src/app.py`.  The repository has no unregister
handler under `src/` — only the tests call the DELETE
`/activities/.../unregister` endpoint — so `unregister_from_activity`
is modelled from the spec.
-/

namespace Mergington

/-- An activity record, translated from the dict values of `activities`
in `src/app.py`. -/
structure Activity where
  description : String
  schedule : String
  max_participants : Nat
  participants : List String
deriving DecidableEq, Repr

/-- The registry: mapping from activity name to activity record. -/
abbrev Registry : Type := List (String × Activity)

/-- Dict lookup `activities[name]` (also the membership test
`name in activities`): first entry whose key matches. -/
def lookupActivity : Registry → String → Option Activity
  | [], _ => none
  | (k, a) :: rest, name => if k == name then some a else lookupActivity rest name

/-- In-place mutation of the record stored under `name` (Python mutates
the dict value in place; keys are unique, so replacing the value at every
matching key is the same thing). -/
def updateActivity : Registry → String → Activity → Registry
  | [], _, _ => []
  | (k, a) :: rest, name, b =>
      if k == name then (k, b) :: updateActivity rest name b
      else (k, a) :: updateActivity rest name b

/-- An HTTPException as raised by the handlers: a status code and a detail
message. -/
structure HTTPError where
  status : Nat
  detail : String
deriving DecidableEq, Repr

/-- The seed record for "Basketball Club" in `src/app.py`. -/
def basketballClub : Activity :=
  { description := "Play basketball and improve athletic skills",
    schedule := "Mondays and Wednesdays, 4:00 PM - 5:30 PM",
    max_participants := 15,
    participants := [] }

/-- The seed record for "Tennis Team" in `src/app.py`. -/
def tennisTeam : Activity :=
  { description := "Learn tennis techniques and compete in matches",
    schedule := "Tuesdays and Thursdays, 3:30 PM - 5:00 PM",
    max_participants := 10,
    participants := [] }

/-- The seed record for "Art Studio" in `src/app.py`. -/
def artStudio : Activity :=
  { description := "Explore painting, drawing, and sculpture techniques",
    schedule := "Wednesdays, 3:30 PM - 5:00 PM",
    max_participants := 18,
    participants := [] }

/-- The seed record for "Music Band" in `src/app.py`. -/
def musicBand : Activity :=
  { description := "Join the school band and perform in concerts",
    schedule := "Mondays and Thursdays, 4:00 PM - 5:30 PM",
    max_participants := 25,
    participants := [] }

/-- The seed record for "Debate Team" in `src/app.py`. -/
def debateTeam : Activity :=
  { description := "Develop argumentation skills and compete in debates",
    schedule := "Tuesdays, 3:30 PM - 5:00 PM",
    max_participants := 16,
    participants := [] }

/-- The seed record for "Science Club" in `src/app.py`. -/
def scienceClub : Activity :=
  { description := "Conduct experiments and explore scientific concepts",
    schedule := "Fridays, 3:30 PM - 5:00 PM",
    max_participants := 20,
    participants := [] }

/-- The in-memory activity database seeded at module load in `src/app.py`. -/
def activities : Registry :=
  [ ("Basketball Club", basketballClub),
    ("Tennis Team", tennisTeam),
    ("Art Studio", artStudio),
    ("Music Band", musicBand),
    ("Debate Team", debateTeam),
    ("Science Club", scienceClub) ]

/-- `GET /activities`: returns the full mapping, no mutation. -/
def get_activities (reg : Registry) : Registry := reg

/-- `POST /activities/.../signup`, translated from `signup_for_activity`
in `src/app.py`: 404 when the activity name is not a key of the registry,
400 when the email is already in the participant list, otherwise the email
is appended to the participant list and a confirmation is returned. -/
def signup_for_activity (reg : Registry) (activity_name : String)
    (email : String) : Except HTTPError (Registry × String) :=
  match lookupActivity reg activity_name with
  | none => .error ⟨404, "Activity not found"⟩
  | some activity =>
    if email ∈ activity.participants then
      .error ⟨400, "Student already signed up for this activity"⟩
    else
      .ok (updateActivity reg activity_name
             { activity with participants := activity.participants ++ [email] },
           "Signed up " ++ email ++ " for " ++ activity_name)

/-- Modelled from the spec: `src/app.py` contains no handler for the
DELETE `/activities/.../unregister` endpoint, which is exercised only by
`tests/test_app.py`.  Per the spec it fails with 404 "Activity not found"
when the activity name is absent, fails with 400 and a detail containing
"not signed up" when the email is not currently in the participant set,
and on success removes the email from the participant set and returns the
confirmation message. -/
def unregister_from_activity (reg : Registry) (activity_name : String)
    (email : String) : Except HTTPError (Registry × String) :=
  match lookupActivity reg activity_name with
  | none => .error ⟨404, "Activity not found"⟩
  | some activity =>
    if email ∈ activity.participants then
      .ok (updateActivity reg activity_name
             { activity with
                 participants := activity.participants.filter (fun p => p != email) },
           "Unregistered " ++ email ++ " from " ++ activity_name)
    else
      .error ⟨400, "Student is not signed up for this activity"⟩

/-- Running the signup handler against the shared state: an
`HTTPException` is raised before any mutation, so on error the registry
is unchanged and the response carries the error status and detail. -/
def runSignup (reg : Registry) (name email : String) :
    Registry × Nat × String :=
  match signup_for_activity reg name email with
  | .ok (reg', msg) => (reg', 200, msg)
  | .error e => (reg, e.status, e.detail)

/-- Running the unregister handler against the shared state. -/
def runUnregister (reg : Registry) (name email : String) :
    Registry × Nat × String :=
  match unregister_from_activity reg name email with
  | .ok (reg', msg) => (reg', 200, msg)
  | .error e => (reg, e.status, e.detail)

/-- Number of times `email` occurs in the participant list of the activity
stored under `name` (0 when the activity does not exist). -/
def participantCount (reg : Registry) (name email : String) : Nat :=
  match lookupActivity reg name with
  | none => 0
  | some a => a.participants.count email

/-- Lookup after updating the same key returns the new record. -/
theorem lookup_update_self (reg : Registry) (name : String) (a b : Activity)
    (h : lookupActivity reg name = some a) :
    lookupActivity (updateActivity reg name b) name = some b := by
  induction reg with
  | nil => simp [lookupActivity] at h
  | cons p rest ih =>
    obtain ⟨k, v⟩ := p
    by_cases hk : k = name
    · simp [lookupActivity, updateActivity, hk]
    · simp [lookupActivity, updateActivity, hk] at h ⊢
      exact ih h

/-- Lookup at a different key is unaffected by an update. -/
theorem lookup_update_other (reg : Registry) (name other : String)
    (b : Activity) (h : other ≠ name) :
    lookupActivity (updateActivity reg name b) other =
      lookupActivity reg other := by
  induction reg with
  | nil => simp [updateActivity, lookupActivity]
  | cons p rest ih =>
    obtain ⟨k, v⟩ := p
    by_cases hk : k = name
    · simp [updateActivity, lookupActivity, hk, Ne.symm h, ih]
    · simp [updateActivity, lookupActivity, hk, ih]

/-- Updating a record never changes the key list of the registry. -/
theorem keys_update (reg : Registry) (name : String) (b : Activity) :
    (updateActivity reg name b).map Prod.fst = reg.map Prod.fst := by
  induction reg with
  | nil => rfl
  | cons p rest ih =>
    obtain ⟨k, v⟩ := p
    by_cases hk : k = name <;> simp [updateActivity, hk, ih]

/-- A name that is not a key of the registry has no record. -/
theorem lookup_eq_none (reg : Registry) (name : String)
    (h : name ∉ reg.map Prod.fst) : lookupActivity reg name = none := by
  induction reg with
  | nil => rfl
  | cons p rest ih =>
    obtain ⟨k, v⟩ := p
    simp only [List.map_cons, List.mem_cons, not_or] at h
    simp only [lookupActivity, beq_iff_eq]
    rw [if_neg (Ne.symm h.1)]
    exact ih h.2

/-- C10: at process start the registry is seeded with exactly the six
activities "Basketball Club", "Tennis Team", "Art Studio", "Music Band",
"Debate Team" and "Science Club", and every seeded activity's participant
list is initially empty. -/
theorem seed_registry :
    activities.map Prod.fst =
      ["Basketball Club", "Tennis Team", "Art Studio", "Music Band",
       "Debate Team", "Science Club"] ∧
    ∀ p ∈ activities, p.2.participants = [] := by
  constructor
  · rfl
  · intro p hp
    simp only [activities, List.mem_cons, List.not_mem_nil, or_false] at hp
    rcases hp with h | h | h | h | h | h <;> subst h <;> rfl

/-- C3: signup for a name that is not a key of the registry fails with
HTTP 404 and detail "Activity not found", and the registry state is
unchanged by the failed call. -/
theorem signup_activity_not_found (reg : Registry) (name email : String)
    (h : name ∉ reg.map Prod.fst) :
    runSignup reg name email = (reg, 404, "Activity not found") := by
  simp [runSignup, signup_for_activity, lookup_eq_none reg name h]

/-- Witness for `signup_activity_not_found` at a concrete input. -/
theorem signup_activity_not_found_witness :
    "NoSuchClub" ∉ activities.map Prod.fst ∧
    runSignup activities "NoSuchClub" "student@mergington.edu" =
      (activities, 404, "Activity not found") :=
  ⟨by decide,
   signup_activity_not_found activities "NoSuchClub" "student@mergington.edu"
     (by decide)⟩

/-- C4: for every activity name present in the registry and every email not
yet in that activity's participant list, signup succeeds: it appends the
email at the end of the participant list (keeping earlier signups in order)
and returns the confirmation message "Signed up <email> for <name>". -/
theorem signup_success (reg : Registry) (name email : String) (a : Activity)
    (h1 : lookupActivity reg name = some a) (h2 : email ∉ a.participants) :
    signup_for_activity reg name email =
      .ok (updateActivity reg name
             { a with participants := a.participants ++ [email] },
           "Signed up " ++ email ++ " for " ++ name) ∧
    lookupActivity (updateActivity reg name
        { a with participants := a.participants ++ [email] }) name =
      some { a with participants := a.participants ++ [email] } := by
  constructor
  · simp [signup_for_activity, h1, h2]
  · exact lookup_update_self reg name a _ h1

/-- Witness for `signup_success` at a concrete input. -/
theorem signup_success_witness :
    lookupActivity activities "Basketball Club" = some basketballClub ∧
    "a@mergington.edu" ∉ basketballClub.participants ∧
    (signup_for_activity activities "Basketball Club" "a@mergington.edu" =
      .ok (updateActivity activities "Basketball Club"
             { basketballClub with
                 participants := basketballClub.participants ++ ["a@mergington.edu"] },
           "Signed up " ++ "a@mergington.edu" ++ " for " ++ "Basketball Club") ∧
     lookupActivity (updateActivity activities "Basketball Club"
        { basketballClub with
            participants := basketballClub.participants ++ ["a@mergington.edu"] })
        "Basketball Club" =
      some { basketballClub with
               participants := basketballClub.participants ++ ["a@mergington.edu"] }) :=
  ⟨by decide, by decide,
   signup_success activities "Basketball Club" "a@mergington.edu" basketballClub
     (by decide) (by decide)⟩

/-- C2: for an activity in the registry, after a first signup of an email
the second signup with the same (activity, email) pair fails with HTTP 400
and detail "Student already signed up for this activity", leaves the
registry unchanged, and the participant list contains the email exactly
once. -/
theorem signup_duplicate_rejected (reg : Registry) (name email : String)
    (a : Activity) (h1 : lookupActivity reg name = some a)
    (h2 : email ∉ a.participants) :
    (runSignup reg name email).2.1 = 200 ∧
    runSignup (runSignup reg name email).1 name email =
      ((runSignup reg name email).1, 400,
        "Student already signed up for this activity") ∧
    participantCount (runSignup reg name email).1 name email = 1 := by
  have hrun : runSignup reg name email =
      (updateActivity reg name
         { a with participants := a.participants ++ [email] }, 200,
       "Signed up " ++ email ++ " for " ++ name) := by
    simp [runSignup, signup_for_activity, h1, h2]
  have hl := lookup_update_self reg name a
      { a with participants := a.participants ++ [email] } h1
  refine ⟨by rw [hrun], ?_, ?_⟩
  · rw [hrun]
    simp [runSignup, signup_for_activity, hl]
  · rw [hrun]
    simp only [participantCount, hl]
    rw [List.count_append, List.count_eq_zero.mpr h2]
    simp

/-- Witness for `signup_duplicate_rejected` at a concrete input. -/
theorem signup_duplicate_rejected_witness :
    lookupActivity activities "Art Studio" = some artStudio ∧
    "s4@mergington.edu" ∉ artStudio.participants ∧
    ((runSignup activities "Art Studio" "s4@mergington.edu").2.1 = 200 ∧
     runSignup (runSignup activities "Art Studio" "s4@mergington.edu").1
         "Art Studio" "s4@mergington.edu" =
       ((runSignup activities "Art Studio" "s4@mergington.edu").1, 400,
         "Student already signed up for this activity") ∧
     participantCount (runSignup activities "Art Studio" "s4@mergington.edu").1
       "Art Studio" "s4@mergington.edu" = 1) :=
  ⟨by decide, by decide,
   signup_duplicate_rejected activities "Art Studio" "s4@mergington.edu"
     artStudio (by decide) (by decide)⟩

/-- C6: signup performs no capacity check: for an activity whose participant
count is already at or above max_participants, signup of a fresh email still
succeeds, and the participant count then exceeds max_participants. -/
theorem signup_no_capacity_check (reg : Registry) (name email : String)
    (a : Activity) (h1 : lookupActivity reg name = some a)
    (h2 : email ∉ a.participants)
    (h3 : a.max_participants ≤ a.participants.length) :
    signup_for_activity reg name email =
      .ok (updateActivity reg name
             { a with participants := a.participants ++ [email] },
           "Signed up " ++ email ++ " for " ++ name) ∧
    lookupActivity (updateActivity reg name
        { a with participants := a.participants ++ [email] }) name =
      some { a with participants := a.participants ++ [email] } ∧
    a.max_participants <
      (Activity.participants
        { a with participants := a.participants ++ [email] }).length := by
  refine ⟨by simp [signup_for_activity, h1, h2],
          lookup_update_self reg name a _ h1, ?_⟩
  show a.max_participants < (a.participants ++ [email]).length
  simp only [List.length_append, List.length_singleton]
  omega

/-- A registry holding a single activity that is already at capacity,
used to exercise the absent capacity check. -/
def chessClubFull : Activity :=
  { description := "Play chess",
    schedule := "Fridays, 3:30 PM - 5:00 PM",
    max_participants := 1,
    participants := ["a@mergington.edu"] }

/-- A one-activity registry whose only activity is at capacity. -/
def fullRegistry : Registry := [("Chess Club", chessClubFull)]

/-- Witness for `signup_no_capacity_check` at a concrete input: the sole
activity is at capacity and the signup still succeeds. -/
theorem signup_no_capacity_check_witness :
    lookupActivity fullRegistry "Chess Club" = some chessClubFull ∧
    "b@mergington.edu" ∉ chessClubFull.participants ∧
    chessClubFull.max_participants ≤ chessClubFull.participants.length ∧
    (signup_for_activity fullRegistry "Chess Club" "b@mergington.edu" =
      .ok (updateActivity fullRegistry "Chess Club"
             { chessClubFull with
                 participants := chessClubFull.participants ++ ["b@mergington.edu"] },
           "Signed up " ++ "b@mergington.edu" ++ " for " ++ "Chess Club") ∧
     lookupActivity (updateActivity fullRegistry "Chess Club"
        { chessClubFull with
            participants := chessClubFull.participants ++ ["b@mergington.edu"] })
        "Chess Club" =
      some { chessClubFull with
               participants := chessClubFull.participants ++ ["b@mergington.edu"] } ∧
     chessClubFull.max_participants <
       (Activity.participants
         { chessClubFull with
             participants := chessClubFull.participants ++ ["b@mergington.edu"] }).length) :=
  ⟨by decide, by decide, by decide,
   signup_no_capacity_check fullRegistry "Chess Club" "b@mergington.edu"
     chessClubFull (by decide) (by decide) (by decide)⟩

/-- C9: a successful signup for an activity changes only that activity's
participant list: its description, schedule and max_participants are
unchanged, and every activity stored under a different name is entirely
unchanged. -/
theorem signup_frame (reg : Registry) (name other email : String)
    (a : Activity) (h1 : lookupActivity reg name = some a)
    (h2 : email ∉ a.participants) (h3 : other ≠ name) :
    (runSignup reg name email).2.1 = 200 ∧
    lookupActivity (runSignup reg name email).1 name =
      some { description := a.description, schedule := a.schedule,
             max_participants := a.max_participants,
             participants := a.participants ++ [email] } ∧
    lookupActivity (runSignup reg name email).1 other =
      lookupActivity reg other := by
  have hrun : (runSignup reg name email).1 =
      updateActivity reg name
        { a with participants := a.participants ++ [email] } := by
    simp [runSignup, signup_for_activity, h1, h2]
  refine ⟨?_, ?_, ?_⟩
  · simp [runSignup, signup_for_activity, h1, h2]
  · rw [hrun]
    exact lookup_update_self reg name a _ h1
  · rw [hrun]
    exact lookup_update_other reg name other _ h3

/-- Witness for `signup_frame` at a concrete input. -/
theorem signup_frame_witness :
    lookupActivity activities "Basketball Club" = some basketballClub ∧
    "s5@mergington.edu" ∉ basketballClub.participants ∧
    "Tennis Team" ≠ "Basketball Club" ∧
    ((runSignup activities "Basketball Club" "s5@mergington.edu").2.1 = 200 ∧
     lookupActivity (runSignup activities "Basketball Club" "s5@mergington.edu").1
         "Basketball Club" =
       some { description := basketballClub.description,
              schedule := basketballClub.schedule,
              max_participants := basketballClub.max_participants,
              participants := basketballClub.participants ++ ["s5@mergington.edu"] } ∧
     lookupActivity (runSignup activities "Basketball Club" "s5@mergington.edu").1
         "Tennis Team" =
       lookupActivity activities "Tennis Team") :=
  ⟨by decide, by decide, by decide,
   signup_frame activities "Basketball Club" "Tennis Team" "s5@mergington.edu"
     basketballClub (by decide) (by decide) (by decide)⟩

/-- C1: for every activity in the registry and every email currently in its
participant set, unregister succeeds: it removes the email from the
participant set and returns "Unregistered <email> from <name>". -/
theorem unregister_success (reg : Registry) (name email : String)
    (a : Activity) (h1 : lookupActivity reg name = some a)
    (h2 : email ∈ a.participants) :
    unregister_from_activity reg name email =
      .ok (updateActivity reg name
             { a with
                 participants := a.participants.filter (fun p => p != email) },
           "Unregistered " ++ email ++ " from " ++ name) ∧
    participantCount (updateActivity reg name
        { a with
            participants := a.participants.filter (fun p => p != email) })
      name email = 0 := by
  have hl := lookup_update_self reg name a
      { a with participants := a.participants.filter (fun p => p != email) } h1
  refine ⟨by simp [unregister_from_activity, h1, h2], ?_⟩
  simp only [participantCount, hl]
  rw [List.count_eq_zero]
  simp

/-- Witness for `unregister_success` at a concrete input. -/
theorem unregister_success_witness :
    lookupActivity fullRegistry "Chess Club" = some chessClubFull ∧
    "a@mergington.edu" ∈ chessClubFull.participants ∧
    (unregister_from_activity fullRegistry "Chess Club" "a@mergington.edu" =
      .ok (updateActivity fullRegistry "Chess Club"
             { chessClubFull with
                 participants :=
                   chessClubFull.participants.filter
                     (fun p => p != "a@mergington.edu") },
           "Unregistered " ++ "a@mergington.edu" ++ " from " ++ "Chess Club") ∧
     participantCount (updateActivity fullRegistry "Chess Club"
        { chessClubFull with
            participants :=
              chessClubFull.participants.filter
                (fun p => p != "a@mergington.edu") })
       "Chess Club" "a@mergington.edu" = 0) :=
  ⟨by decide, by decide,
   unregister_success fullRegistry "Chess Club" "a@mergington.edu"
     chessClubFull (by decide) (by decide)⟩

/-- C5: unregister fails with HTTP 404 and detail "Activity not found" for
an activity name not in the registry, and fails with HTTP 400 and a detail
containing "not signed up" when the email is not in the participant set; in
both failure cases the registry state is unchanged. -/
theorem unregister_failures (reg : Registry) (name email : String) :
    (name ∉ reg.map Prod.fst →
      runUnregister reg name email = (reg, 404, "Activity not found")) ∧
    (∀ a, lookupActivity reg name = some a → email ∉ a.participants →
      runUnregister reg name email =
        (reg, 400, "Student is not signed up for this activity")) := by
  constructor
  · intro h
    simp [runUnregister, unregister_from_activity, lookup_eq_none reg name h]
  · intro a ha hm
    simp [runUnregister, unregister_from_activity, ha, hm]

/-- Witness for `unregister_failures` at concrete inputs, one per failure
case. -/
theorem unregister_failures_witness :
    ("NoSuchClub" ∉ activities.map Prod.fst ∧
     runUnregister activities "NoSuchClub" "student@mergington.edu" =
       (activities, 404, "Activity not found")) ∧
    (lookupActivity activities "Art Studio" = some artStudio ∧
     "notregistered@mergington.edu" ∉ artStudio.participants ∧
     runUnregister activities "Art Studio" "notregistered@mergington.edu" =
       (activities, 400, "Student is not signed up for this activity")) :=
  ⟨⟨by decide,
    (unregister_failures activities "NoSuchClub" "student@mergington.edu").1
      (by decide)⟩,
   ⟨by decide, by decide,
    (unregister_failures activities "Art Studio"
        "notregistered@mergington.edu").2 artStudio (by decide) (by decide)⟩⟩

/-- C8: the key set of the registry is invariant: list returns the registry
without mutating it, and neither signup nor unregister, whether it succeeds
or fails, adds or removes a registry key. -/
theorem registry_keys_invariant (reg : Registry) (name email : String) :
    get_activities reg = reg ∧
    (runSignup reg name email).1.map Prod.fst = reg.map Prod.fst ∧
    (runUnregister reg name email).1.map Prod.fst = reg.map Prod.fst := by
  refine ⟨rfl, ?_, ?_⟩
  · unfold runSignup signup_for_activity
    cases h : lookupActivity reg name with
    | none => simp
    | some a =>
      by_cases hm : email ∈ a.participants
      · simp [hm]
      · simp [hm, keys_update]
  · unfold runUnregister unregister_from_activity
    cases h : lookupActivity reg name with
    | none => simp
    | some a =>
      by_cases hm : email ∈ a.participants
      · simp [hm, keys_update]
      · simp [hm]

/-- After a successful signup, unregistering the same pair and signing up
again both succeed: each of the three calls returns 200, and the final
participant list holds the email exactly once. -/
theorem signup_unregister_signup_aux (reg : Registry) (name email : String)
    (a : Activity) (h1 : lookupActivity reg name = some a)
    (h2 : email ∉ a.participants) :
    (runSignup reg name email).2.1 = 200 ∧
    (runUnregister (runSignup reg name email).1 name email).2.1 = 200 ∧
    (runSignup (runUnregister (runSignup reg name email).1 name email).1
        name email).2.1 = 200 ∧
    participantCount
      (runSignup (runUnregister (runSignup reg name email).1 name email).1
         name email).1 name email = 1 := by
  obtain ⟨d, s, m, parts⟩ := a
  simp only at h2
  have hfself : parts.filter (fun p => p != email) = parts := by
    rw [List.filter_eq_self]
    intro p hp
    rw [bne_iff_ne]
    intro he
    exact h2 (he ▸ hp)
  have hf2 : (parts ++ [email]).filter (fun p => p != email) = parts := by
    rw [List.filter_append, hfself]
    simp
  have e1 : runSignup reg name email =
      (updateActivity reg name ⟨d, s, m, parts ++ [email]⟩, 200,
       "Signed up " ++ email ++ " for " ++ name) := by
    simp [runSignup, signup_for_activity, h1, h2]
  have l1 : lookupActivity (updateActivity reg name ⟨d, s, m, parts ++ [email]⟩)
      name = some ⟨d, s, m, parts ++ [email]⟩ :=
    lookup_update_self reg name _ _ h1
  have e2 : runUnregister (updateActivity reg name ⟨d, s, m, parts ++ [email]⟩)
      name email =
      (updateActivity (updateActivity reg name ⟨d, s, m, parts ++ [email]⟩)
         name ⟨d, s, m, parts⟩, 200,
       "Unregistered " ++ email ++ " from " ++ name) := by
    simp [runUnregister, unregister_from_activity, l1, hf2]
  have l2 : lookupActivity
      (updateActivity (updateActivity reg name ⟨d, s, m, parts ++ [email]⟩)
        name ⟨d, s, m, parts⟩) name = some ⟨d, s, m, parts⟩ :=
    lookup_update_self _ name _ _ l1
  have e3 : runSignup
      (updateActivity (updateActivity reg name ⟨d, s, m, parts ++ [email]⟩)
        name ⟨d, s, m, parts⟩) name email =
      (updateActivity
         (updateActivity (updateActivity reg name ⟨d, s, m, parts ++ [email]⟩)
           name ⟨d, s, m, parts⟩) name ⟨d, s, m, parts ++ [email]⟩, 200,
       "Signed up " ++ email ++ " for " ++ name) := by
    simp [runSignup, signup_for_activity, l2, h2]
  have l3 : lookupActivity
      (updateActivity
        (updateActivity (updateActivity reg name ⟨d, s, m, parts ++ [email]⟩)
          name ⟨d, s, m, parts⟩) name ⟨d, s, m, parts ++ [email]⟩) name =
      some ⟨d, s, m, parts ++ [email]⟩ :=
    lookup_update_self _ name _ _ l2
  rw [e1]
  refine ⟨rfl, ?_, ?_, ?_⟩
  · rw [show (updateActivity reg name ⟨d, s, m, parts ++ [email]⟩, 200,
        "Signed up " ++ email ++ " for " ++ name).1 =
        updateActivity reg name ⟨d, s, m, parts ++ [email]⟩ from rfl, e2]
  · rw [show (updateActivity reg name ⟨d, s, m, parts ++ [email]⟩, 200,
        "Signed up " ++ email ++ " for " ++ name).1 =
        updateActivity reg name ⟨d, s, m, parts ++ [email]⟩ from rfl, e2,
      show (updateActivity (updateActivity reg name ⟨d, s, m, parts ++ [email]⟩)
          name ⟨d, s, m, parts⟩, 200,
        "Unregistered " ++ email ++ " from " ++ name).1 =
        updateActivity (updateActivity reg name ⟨d, s, m, parts ++ [email]⟩)
          name ⟨d, s, m, parts⟩ from rfl, e3]
  · rw [show (updateActivity reg name ⟨d, s, m, parts ++ [email]⟩, 200,
        "Signed up " ++ email ++ " for " ++ name).1 =
        updateActivity reg name ⟨d, s, m, parts ++ [email]⟩ from rfl, e2,
      show (updateActivity (updateActivity reg name ⟨d, s, m, parts ++ [email]⟩)
          name ⟨d, s, m, parts⟩, 200,
        "Unregistered " ++ email ++ " from " ++ name).1 =
        updateActivity (updateActivity reg name ⟨d, s, m, parts ++ [email]⟩)
          name ⟨d, s, m, parts⟩ from rfl, e3]
    simp only [participantCount, l3]
    rw [List.count_append, List.count_eq_zero.mpr h2]
    simp

/-- Every seeded activity starts with an empty participant list. -/
theorem seed_participants_empty (name : String) (a : Activity)
    (h : lookupActivity activities name = some a) : a.participants = [] := by
  simp only [activities, lookupActivity] at h
  repeat' split at h
  all_goals first
    | (simp only [Option.some.injEq] at h
       rw [← h])
    | simp at h
  all_goals rfl

/-- C7: for every activity name in the seeded registry and every email,
the sequence signup, unregister, signup again for the same pair succeeds at
every step (HTTP 200 each time), leaving the pair signed up again. -/
theorem seq_signup_unregister_signup (name email : String) (a : Activity)
    (h : lookupActivity activities name = some a) :
    (runSignup activities name email).2.1 = 200 ∧
    (runUnregister (runSignup activities name email).1 name email).2.1 = 200 ∧
    (runSignup
        (runUnregister (runSignup activities name email).1 name email).1
        name email).2.1 = 200 ∧
    participantCount
      (runSignup
         (runUnregister (runSignup activities name email).1 name email).1
         name email).1 name email = 1 :=
  signup_unregister_signup_aux activities name email a h
    (by rw [seed_participants_empty name a h]; exact List.not_mem_nil email)

/-- Witness for `seq_signup_unregister_signup` at a concrete input. -/
theorem seq_signup_unregister_signup_witness :
    lookupActivity activities "Tennis Team" = some tennisTeam ∧
    ((runSignup activities "Tennis Team" "s6@mergington.edu").2.1 = 200 ∧
     (runUnregister (runSignup activities "Tennis Team" "s6@mergington.edu").1
        "Tennis Team" "s6@mergington.edu").2.1 = 200 ∧
     (runSignup
         (runUnregister
            (runSignup activities "Tennis Team" "s6@mergington.edu").1
            "Tennis Team" "s6@mergington.edu").1
         "Tennis Team" "s6@mergington.edu").2.1 = 200 ∧
     participantCount
       (runSignup
          (runUnregister
             (runSignup activities "Tennis Team" "s6@mergington.edu").1
             "Tennis Team" "s6@mergington.edu").1
          "Tennis Team" "s6@mergington.edu").1
       "Tennis Team" "s6@mergington.edu" = 1) :=
  ⟨by decide,
   seq_signup_unregister_signup "Tennis Team" "s6@mergington.edu" tennisTeam
     (by decide)⟩

end Mergington
